import Mathlib

/-
  Verification development for the LogCollector repository
  (src/log_collector/source_manager.py and src/log_collector/cli.py).

  The Python code is shallowly embedded: a source configuration is a
  Python dictionary mapping string keys to scalar values, modelled as an
  association list; filesystem and network effects performed by
  `validate_source` (folder creation, write test, HEC POST) are modelled
  by an explicit environment of oracles; Python exceptions that can
  escape a function are modelled by an explicit result type.
-/

namespace LogCollector

/-- A Python scalar value as stored in a source configuration dictionary:
a string, an integer, or `None`. -/
inductive PyVal where
  | str (s : String)
  | int (n : Int)
  | none
deriving DecidableEq, Repr

/-- A Python dictionary with string keys, as an association list.
Keys are unique in a real Python dict; `dictSet` preserves that. -/
abbrev PyDict := List (String × PyVal)

/-- Lookup of `d[k]` / `d.get(k)`: the value at the first matching key. -/
def dictGet (d : List (String × α)) (k : String) : Option α :=
  (d.find? (fun p => p.1 == k)).map Prod.snd

/-- Assignment `d[k] = v`: replaces the value at an existing key in
place, otherwise appends the new pair (Python dict insertion order). -/
def dictSet : List (String × α) → String → α → List (String × α)
  | [], k, v => [(k, v)]
  | (k', v') :: rest, k, v =>
      if k' == k then (k', v) :: rest else (k', v') :: dictSet rest k v

/-- Python `d.update(u)`: assign every pair of `u` into `d`, in order. -/
def dictUpdate (d u : List (String × α)) : List (String × α) :=
  u.foldl (fun acc p => dictSet acc p.1 p.2) d

/-- Python `k in d`. -/
def hasKey (d : List (String × α)) (k : String) : Bool :=
  (dictGet d k).isSome

/-- Lookup of a key already known to be present: `d[k]` after a
membership check has succeeded (absence collapses to `None`, a case the
guarded call sites never reach). -/
def pget (d : PyDict) (k : String) : PyVal :=
  (dictGet d k).getD PyVal.none

/-- The registry `self.sources`: a dictionary from source id to the
source configuration dictionary. -/
abbrev Registry := List (String × PyDict)

/-- A Python exception escaping a modelled function. -/
inductive PyExn where
  | typeError (msg : String)
  | valueError (msg : String)
deriving DecidableEq, Repr

/-- Result of running a modelled Python function: a normal return value
or an uncaught exception. -/
inductive PyM (α : Type) where
  | ok (a : α)
  | raise (e : PyExn)
deriving DecidableEq, Repr

/-- Python whitespace characters stripped by `int(str)`. -/
def isPySpace (c : Char) : Bool :=
  c == ' ' || c == '\t' || c == '\n' || c == '\r'

/-- Strip leading and trailing whitespace from a character list. -/
def pyStrip (l : List Char) : List Char :=
  ((l.dropWhile isPySpace).reverse.dropWhile isPySpace).reverse

/-- Decimal value of a digit list. -/
def digitsToNat (l : List Char) : Nat :=
  l.foldl (fun a c => a * 10 + (c.toNat - 48)) 0

/-- Parse an optionally signed decimal numeral, the grammar accepted by
CPython `int(str)` after stripping whitespace. -/
def parseIntChars : List Char → Option Int
  | [] => Option.none
  | '-' :: rest =>
      if rest ≠ [] ∧ rest.all Char.isDigit then
        Option.some (-(digitsToNat rest : Int))
      else Option.none
  | '+' :: rest =>
      if rest ≠ [] ∧ rest.all Char.isDigit then
        Option.some (digitsToNat rest : Int)
      else Option.none
  | l =>
      if l.all Char.isDigit then Option.some (digitsToNat l : Int)
      else Option.none

/-- CPython `int(x)` on a scalar: identity on integers, decimal parsing
on strings (`ValueError` on a malformed string), `TypeError` on `None`. -/
def pyInt : PyVal → PyM Int
  | .int n => .ok n
  | .str s =>
      match parseIntChars (pyStrip s.toList) with
      | Option.some n => .ok n
      | Option.none =>
          .raise (.valueError ("invalid literal for int() with base 10: " ++ s))
  | .none =>
      .raise (.typeError
        "int() argument must be a string, a bytes-like object or a real number, not NoneType")

/-- Outcome of the HEC connection test POST performed by
`requests.post` inside `validate_source`: an HTTP status code, or an
exception raised by the request (network error, bad argument types). -/
inductive HecOutcome where
  | status (code : Nat)
  | exn (msg : String)
deriving DecidableEq, Repr

/-- Oracle environment for the effects `validate_source` and the
persistence layer perform.  `folderExists`, `makedirs` and `writeTest`
model `Path.exists`, `os.makedirs` and the write-probe (a `some` message
is the caught exception text); `hecPost` models the `requests.post` call
on the stored url and token values.  `save` models `save_sources` from
`config.py`. Modelled from the spec: `config.py` is not under src/; the
spec says on-disk persistence of source definitions may fail and that
failure is surfaced as a structured error. -/
structure Env where
  folderExists : String → Bool
  makedirs : String → Option String
  writeTest : String → Option String
  hecPost : PyVal → PyVal → HecOutcome
  save : Registry → Bool

/-- Modelled from the spec: `DEFAULT_UDP_PROTOCOL` lives in the missing
`config.py`; the spec and the CLI (`Protocol (u-UDP, t-TCP) [UDP]`,
`Using protocol: UDP`) fix the default transport as UDP. -/
def DEFAULT_UDP_PROTOCOL : String := "UDP"

/-- Modelled from the spec: the numeric batch-size defaults
`DEFAULT_HEC_BATCH_SIZE` and `DEFAULT_FOLDER_BATCH_SIZE` live in the
missing `config.py`; the spec only says the defaults are positive and
differ by target kind, so they are kept as parameters. -/
structure Config where
  hecBatchSize : Int
  folderBatchSize : Int

/-- Result of `validate_source`: the dictionary `{"valid": True}` or
`{"valid": False, "error": msg}`. -/
inductive VResult where
  | valid
  | invalid (error : String)
deriving DecidableEq, Repr

/-- Result of `add_source` / `update_source`: `{"success": True}` with
an optional `source_id`, or `{"success": False, "error": msg}`. -/
inductive OpResult where
  | success (source_id : Option String)
  | failure (error : String)
deriving DecidableEq, Repr

namespace SourceManager

/-- The `required_fields` list of `validate_source`
(source_manager.py line 136). -/
def required_fields : List String :=
  ["source_name", "source_ip", "listener_port", "target_type"]

/-- First required field missing from the dictionary
(source_manager.py lines 139-144). -/
def requiredMissing (d : PyDict) : Option String :=
  required_fields.find? (fun f => !(hasKey d f))

/-- Folder-target checks of `validate_source`
(source_manager.py lines 168-196): `folder_path` must be present; the
folder is created if absent (`os.makedirs` inside try/except) and then
probed for writability; `Path(...)` on a non-string raises a
`TypeError` outside any try block. -/
def folderCheck (env : Env) (d : PyDict) : PyM VResult :=
  if hasKey d "folder_path" then
    match pget d "folder_path" with
    | .str p =>
        match (if env.folderExists p then Option.none else env.makedirs p) with
        | Option.some e => .ok (.invalid ("Could not create folder path: " ++ e))
        | Option.none =>
            match env.writeTest p with
            | Option.some e => .ok (.invalid ("Folder is not writable: " ++ e))
            | Option.none => .ok .valid
    | _ => .raise (.typeError "argument should be a str or an os.PathLike object")
  else .ok (.invalid "Folder path is required for Folder target")

/-- HEC-target checks of `validate_source`
(source_manager.py lines 198-245): `hec_url` and `hec_token` must be
present; the connection test accepts exactly status 200 and converts
any other status or any exception into a structured error (the whole
test sits in a try/except catching every exception). -/
def hecCheck (env : Env) (d : PyDict) : PyM VResult :=
  if hasKey d "hec_url" then
    if hasKey d "hec_token" then
      match env.hecPost (pget d "hec_url") (pget d "hec_token") with
      | .status n =>
          if n ≠ 200 then
            .ok (.invalid ("HEC connection test failed with status code: " ++ toString n))
          else .ok .valid
      | .exn m => .ok (.invalid ("HEC connection test failed: " ++ m))
    else .ok (.invalid "HEC token is required for HEC Connector target")
  else .ok (.invalid "HEC URL is required for HEC Connector target")

/-- Protocol and target checks of `validate_source`
(source_manager.py lines 160-250): protocol must be the string `UDP`
or `TCP`; the target type selects the folder branch for exactly the
string `Folder`, the HEC branch for exactly `HEC`, and is otherwise
rejected. -/
def validateRest (env : Env) (d : PyDict) : PyM VResult :=
  if dictGet d "protocol" = Option.some (PyVal.str "UDP") ∨
     dictGet d "protocol" = Option.some (PyVal.str "TCP") then
    match pget d "target_type" with
    | .str "Folder" => folderCheck env d
    | .str "HEC" => hecCheck env d
    | _ => .ok (.invalid "Target type must be either Folder or HEC")
  else .ok (.invalid "Protocol must be either UDP or TCP")

/-- `SourceManager.validate_source` (source_manager.py lines 134-255):
required-field check, then port parsing and range check (only
`ValueError` is caught, so a `TypeError` from `int(...)` escapes), then
protocol and target validation. -/
def validate_source (env : Env) (d : PyDict) : PyM VResult :=
  match requiredMissing d with
  | Option.some f => .ok (.invalid ("Missing required field: " ++ f))
  | Option.none =>
      match pyInt (pget d "listener_port") with
      | .raise (.valueError _) => .ok (.invalid "Listener port must be a valid number")
      | .raise e => .raise e
      | .ok port =>
          if port < 1 ∨ port > 65535 then
            .ok (.invalid "Listener port must be between 1 and 65535")
          else validateRest env d

/-- The default-filling prologue of `add_source`
(source_manager.py lines 40-47): protocol defaults to
`DEFAULT_UDP_PROTOCOL`; `batch_size` defaults per target type, checking
the exact strings `HEC` and `Folder`. -/
def applyDefaults (cfg : Config) (d : PyDict) : PyDict :=
  let d1 := if hasKey d "protocol" then d
            else dictSet d "protocol" (PyVal.str DEFAULT_UDP_PROTOCOL)
  if dictGet d1 "target_type" = Option.some (PyVal.str "HEC") ∧
     hasKey d1 "batch_size" = false then
    dictSet d1 "batch_size" (PyVal.int cfg.hecBatchSize)
  else if dictGet d1 "target_type" = Option.some (PyVal.str "Folder") ∧
          hasKey d1 "batch_size" = false then
    dictSet d1 "batch_size" (PyVal.int cfg.folderBatchSize)
  else d1

/-- `SourceManager.add_source` (source_manager.py lines 35-72): fill
defaults, validate, insert under the fresh id, then persist; a failed
save reports an error but the source stays in the in-memory map.
Returns the result dictionary together with the new registry state. -/
def add_source (env : Env) (cfg : Config) (reg : Registry)
    (source_id : String) (source_data : PyDict) : PyM (OpResult × Registry) :=
  match validate_source env (applyDefaults cfg source_data) with
  | .raise e => .raise e
  | .ok (.invalid m) => .ok (.failure m, reg)
  | .ok .valid =>
      if env.save (dictSet reg source_id (applyDefaults cfg source_data)) then
        .ok (.success (Option.some source_id),
             dictSet reg source_id (applyDefaults cfg source_data))
      else
        .ok (.failure "Failed to save source configuration",
             dictSet reg source_id (applyDefaults cfg source_data))

/-- `SourceManager.update_source` (source_manager.py lines 74-108):
merge the update into a copy of the stored source, validate the merged
dictionary, and only then assign it back and persist. -/
def update_source (env : Env) (reg : Registry)
    (source_id : String) (updated_data : PyDict) : PyM (OpResult × Registry) :=
  match dictGet reg source_id with
  | Option.none =>
      .ok (.failure ("Source with ID " ++ source_id ++ " does not exist"), reg)
  | Option.some src =>
      match validate_source env (dictUpdate src updated_data) with
      | .raise e => .raise e
      | .ok (.invalid m) => .ok (.failure m, reg)
      | .ok .valid =>
          if env.save (dictSet reg source_id (dictUpdate src updated_data)) then
            .ok (.success Option.none,
                 dictSet reg source_id (dictUpdate src updated_data))
          else
            .ok (.failure "Failed to save source configuration",
                 dictSet reg source_id (dictUpdate src updated_data))

/-- `SourceManager.get_sources` (source_manager.py lines 27-29). -/
def get_sources (reg : Registry) : Registry := reg

/-- `SourceManager.get_source` (source_manager.py lines 31-33). -/
def get_source (reg : Registry) (source_id : String) : Option PyDict :=
  dictGet reg source_id

end SourceManager

/-- Rendering of a scalar inside a CLI f-string. -/
def pyStr : PyVal → String
  | .str s => s
  | .int n => toString n
  | .none => "None"

/-- The redacted token display of the CLI: the Python expression
written as ten asterisks (cli.py lines 390 and 648). -/
def stars10 : String := String.mk (List.replicate 10 '*')

namespace CLI

/-- The per-source detail lines printed by `_manage_source`
(cli.py lines 378-392): identity, binding and target fields, with the
HEC token replaced by asterisks; the target branch tests the exact
strings `FOLDER` and `HEC`.  Colour escape prefixes and the empty
leading line are elided; each list element is the textual content of
one printed line. -/
def manage_source_view (source_id : String) (s : PyDict) : List String :=
  ["=== Manage Source: " ++ pyStr (pget s "source_name") ++ " ===",
   "Source ID: " ++ source_id,
   "Source Name: " ++ pyStr (pget s "source_name"),
   "Source IP: " ++ pyStr (pget s "source_ip"),
   "Listener Port: " ++ pyStr (pget s "listener_port"),
   "Protocol: " ++ pyStr (pget s "protocol"),
   "Target Type: " ++ pyStr (pget s "target_type")]
  ++ (if pget s "target_type" = PyVal.str "FOLDER" then
        ["Folder Path: " ++ pyStr (pget s "folder_path")]
      else if pget s "target_type" = PyVal.str "HEC" then
        ["HEC URL: " ++ pyStr (pget s "hec_url"),
         "HEC Token: " ++ stars10]
      else [])
  ++ ["Batch Size: " ++ pyStr ((dictGet s "batch_size").getD (PyVal.str "Default"))]

/-- The current-configuration lines printed by `_configure_health_check`
when a health-check configuration exists (cli.py lines 644-650): url,
redacted token, interval and running state. -/
def health_check_config_view (config : PyDict) (isRunning : Bool) : List String :=
  ["Current Configuration:",
   "HEC URL: " ++ pyStr (pget config "hec_url"),
   "HEC Token: " ++ stars10,
   "Interval: " ++ pyStr (pget config "interval") ++ " seconds",
   "Status: " ++ (if isRunning then "Running" else "Stopped")]

/-- The three prompt texts displayed by `_update_health_check`
(cli.py lines 714-744). -/
structure HCPrompts where
  url_text : String
  token_text : String
  interval_text : String
deriving DecidableEq, Repr

/-- Prompt texts of `_update_health_check` (cli.py lines 714-744): each
prompt embeds the current configured value in brackets when one is
present — including the stored HEC token, in clear text, at line 733.
`defInterval` stands for `DEFAULT_HEALTH_CHECK_INTERVAL` from the
missing `config.py`. -/
def update_health_check_prompts (defInterval : Int) (config : Option PyDict) :
    HCPrompts :=
  let cu := match config with
            | Option.some c => pyStr (pget c "hec_url")
            | Option.none => ""
  let ct := match config with
            | Option.some c => pyStr (pget c "hec_token")
            | Option.none => ""
  let ci := match config with
            | Option.some c => pget c "interval"
            | Option.none => PyVal.int defInterval
  { url_text := "HEC URL " ++ (if cu ≠ "" then "[" ++ cu ++ "]" else "") ++ ": ",
    token_text := "HEC Token " ++ (if ct ≠ "" then "[" ++ ct ++ "]" else "") ++ ": ",
    interval_text := "Check Interval in seconds [" ++ pyStr ci ++ "]: " }

/-- Split a character list at the dots, for the IPv4 regex
`(\d{1,3})\.(\d{1,3})\.(\d{1,3})\.(\d{1,3})` of `_add_source`. -/
def splitDot : List Char → List (List Char)
  | [] => [[]]
  | c :: rest =>
      let r := splitDot rest
      if c == '.' then [] :: r
      else match r with
           | h :: t => (c :: h) :: t
           | [] => [[c]]

/-- The IPv4 acceptance test of the CLI add/edit loops
(cli.py lines 169-187): the anchored regex of four 1-3 digit groups
separated by dots, followed by the octet range check `0 <= octet <= 255`. -/
def cliIpOk (ip : String) : Bool :=
  let parts := splitDot ip.toList
  parts.length == 4 &&
  parts.all (fun p =>
    !p.isEmpty && decide (p.length ≤ 3) && p.all Char.isDigit &&
    decide (digitsToNat p ≤ 255))

/-- The interactive IP acceptance of `_add_source`
(cli.py lines 171-187): an entered IP is accepted only if it is not
already used by an existing source and passes the IPv4 test. -/
def add_source_ip_accepted (existing_ips : List String) (ip : String) : Bool :=
  !(existing_ips.contains ip) && cliIpOk ip

end CLI

section DictLemmas

variable {α : Type}

theorem dictGet_nil (k : String) : dictGet ([] : List (String × α)) k = Option.none :=
  rfl

theorem dictGet_cons (k₀ : String) (v₀ : α) (rest : List (String × α)) (k : String) :
    dictGet ((k₀, v₀) :: rest) k =
      if k₀ = k then Option.some v₀ else dictGet rest k := by
  by_cases h : k₀ = k
  · simp [dictGet, List.find?_cons_of_pos, h]
  · simp [dictGet, List.find?_cons_of_neg, h]

theorem dictSet_cons (k₀ : String) (v₀ : α) (rest : List (String × α))
    (k : String) (v : α) :
    dictSet ((k₀, v₀) :: rest) k v =
      if k₀ = k then (k₀, v) :: rest else (k₀, v₀) :: dictSet rest k v := by
  by_cases h : k₀ = k
  · simp [dictSet, h]
  · simp [dictSet, h]

theorem dictGet_dictSet_self (d : List (String × α)) (k : String) (v : α) :
    dictGet (dictSet d k v) k = Option.some v := by
  induction d with
  | nil => simp [dictSet, dictGet_cons]
  | cons p rest ih =>
      obtain ⟨k₀, v₀⟩ := p
      by_cases h : k₀ = k
      · simp [dictSet_cons, h, dictGet_cons]
      · simp [dictSet_cons, h, dictGet_cons, ih]

theorem dictGet_dictSet_ne (d : List (String × α)) (k k' : String) (v : α)
    (h : k' ≠ k) : dictGet (dictSet d k v) k' = dictGet d k' := by
  induction d with
  | nil => simp [dictSet, dictGet_cons, dictGet_nil, Ne.symm h]
  | cons p rest ih =>
      obtain ⟨k₀, v₀⟩ := p
      by_cases h0 : k₀ = k
      · subst h0
        simp [dictSet_cons, dictGet_cons, Ne.symm h]
      · simp [dictSet_cons, h0, dictGet_cons, ih]

theorem dictGet_eq_none_of_not_mem_keys {u : List (String × α)} {k : String}
    (h : k ∉ u.map Prod.fst) : dictGet u k = Option.none := by
  induction u with
  | nil => rfl
  | cons p rest ih =>
      obtain ⟨k₀, v₀⟩ := p
      simp only [List.map_cons, List.mem_cons, not_or] at h
      rw [dictGet_cons, if_neg (fun hh => h.1 hh.symm)]
      exact ih h.2

theorem mem_of_dictGet_eq_some {u : List (String × α)} {k : String} {v : α}
    (h : dictGet u k = Option.some v) : (k, v) ∈ u := by
  induction u with
  | nil => simp [dictGet_nil] at h
  | cons p rest ih =>
      obtain ⟨k₀, v₀⟩ := p
      rw [dictGet_cons] at h
      by_cases h0 : k₀ = k
      · rw [if_pos h0] at h
        have hv : v₀ = v := by simpa using h
        exact List.mem_cons.mpr (Or.inl (by rw [h0, hv]))
      · rw [if_neg h0] at h
        exact List.mem_cons.mpr (Or.inr (ih h))

theorem dictGet_dictUpdate_of_not_mem (d : List (String × α))
    {u : List (String × α)} {k : String} (h : dictGet u k = Option.none) :
    dictGet (dictUpdate d u) k = dictGet d k := by
  induction u generalizing d with
  | nil => simp [dictUpdate]
  | cons p rest ih =>
      obtain ⟨k₀, v₀⟩ := p
      rw [dictGet_cons] at h
      by_cases h0 : k₀ = k
      · rw [if_pos h0] at h
        simp at h
      · rw [if_neg h0] at h
        have hstep : dictUpdate d ((k₀, v₀) :: rest) =
            dictUpdate (dictSet d k₀ v₀) rest := by
          simp [dictUpdate]
        rw [hstep, ih (dictSet d k₀ v₀) h]
        exact dictGet_dictSet_ne d k₀ k v₀ (fun hh => h0 hh.symm)

theorem dictGet_dictUpdate_of_mem (d : List (String × α))
    {u : List (String × α)} {k : String} {v : α}
    (hnd : (u.map Prod.fst).Nodup) (h : (k, v) ∈ u) :
    dictGet (dictUpdate d u) k = Option.some v := by
  induction u generalizing d with
  | nil => simp at h
  | cons p rest ih =>
      obtain ⟨k₀, v₀⟩ := p
      simp only [List.map_cons, List.nodup_cons] at hnd
      have hstep : dictUpdate d ((k₀, v₀) :: rest) =
          dictUpdate (dictSet d k₀ v₀) rest := by
        simp [dictUpdate]
      rcases List.mem_cons.mp h with heq | hmem
      · have hk : k = k₀ := congrArg Prod.fst heq
        have hv : v = v₀ := congrArg Prod.snd heq
        subst hk
        subst hv
        have hnone : dictGet rest k = Option.none :=
          dictGet_eq_none_of_not_mem_keys (by simpa using hnd.1)
        rw [hstep, dictGet_dictUpdate_of_not_mem (dictSet d k v) hnone]
        exact dictGet_dictSet_self d k v
      · rw [hstep]
        exact ih (dictSet d k₀ v₀) hnd.2 hmem

end DictLemmas

/-- A benign effect environment: every folder exists and is writable,
every HEC POST answers 200, persistence succeeds. -/
def envOk : Env :=
  { folderExists := fun _ => true
    makedirs := fun _ => Option.none
    writeTest := fun _ => Option.none
    hecPost := fun _ _ => HecOutcome.status 200
    save := fun _ => true }

/-- Sample batch-size defaults standing in for the constants of the
missing `config.py`. -/
def cfg0 : Config := { hecBatchSize := 500, folderBatchSize := 5000 }

/-- A folder-target source exactly as the CLI add-source flow stores it,
with the upper-case target kind `FOLDER` (cli.py line 219). -/
def srcFOLDER : PyDict :=
  [("source_name", PyVal.str "app1"), ("source_ip", PyVal.str "10.0.0.1"),
   ("listener_port", PyVal.int 514), ("protocol", PyVal.str "UDP"),
   ("target_type", PyVal.str "FOLDER"),
   ("folder_path", PyVal.str "/var/log/collector")]

/-- The same folder-target source with the spelling `Folder` that
`validate_source` tests for (source_manager.py line 168). -/
def srcFolder : PyDict :=
  [("source_name", PyVal.str "app1"), ("source_ip", PyVal.str "10.0.0.1"),
   ("listener_port", PyVal.int 514), ("protocol", PyVal.str "UDP"),
   ("target_type", PyVal.str "Folder"),
   ("folder_path", PyVal.str "/var/log/collector")]

/-- An HEC-target source with all required fields. -/
def srcHEC : PyDict :=
  [("source_name", PyVal.str "sec1"), ("source_ip", PyVal.str "10.0.0.2"),
   ("listener_port", PyVal.int 6514), ("protocol", PyVal.str "TCP"),
   ("target_type", PyVal.str "HEC"),
   ("hec_url", PyVal.str "https://hec.example:8088/services/collector"),
   ("hec_token", PyVal.str "tok-123")]

/-- A folder-target source that shares the bind IP, protocol and port of
`srcFolder` under a different name and path. -/
def srcFolderDup : PyDict :=
  [("source_name", PyVal.str "app2"), ("source_ip", PyVal.str "10.0.0.1"),
   ("listener_port", PyVal.int 514), ("protocol", PyVal.str "UDP"),
   ("target_type", PyVal.str "Folder"),
   ("folder_path", PyVal.str "/var/log/other")]

/-- `srcFolder` without a protocol key, to exercise the protocol
default of `add_source`. -/
def srcFolderNoProto : PyDict :=
  [("source_name", PyVal.str "app1"), ("source_ip", PyVal.str "10.0.0.1"),
   ("listener_port", PyVal.int 514),
   ("target_type", PyVal.str "Folder"),
   ("folder_path", PyVal.str "/var/log/collector")]

/-- `srcFolder` with a listener port that is no numeral. -/
def srcPortNotNum : PyDict :=
  dictSet srcFolder "listener_port" (PyVal.str "51x4")

/-- `srcFolder` with a listener port above 65535. -/
def srcPortOutOfRange : PyDict :=
  dictSet srcFolder "listener_port" (PyVal.int 70000)

/-- An HEC source whose listener port is `None`, a value `int(...)`
rejects with a `TypeError`. -/
def srcPortNone : PyDict :=
  dictSet srcHEC "listener_port" PyVal.none

/-- Environment whose HEC endpoint answers 201 (a 2xx status other
than 200). -/
def env201 : Env := { envOk with hecPost := fun _ _ => HecOutcome.status 201 }

/-- Environment whose HEC endpoint answers 500. -/
def env500 : Env := { envOk with hecPost := fun _ _ => HecOutcome.status 500 }

/-- Environment whose HEC POST raises a network exception. -/
def envExn : Env := { envOk with hecPost := fun _ _ => HecOutcome.exn "timeout" }

/-- Environment in which persisting the registry fails. -/
def envNoSave : Env := { envOk with save := fun _ => false }

/-- A health-check configuration with token `tokenAAAA`. -/
def hcConfigA : PyDict :=
  [("hec_url", PyVal.str "https://hec.example:8088/services/collector"),
   ("hec_token", PyVal.str "tokenAAAA"), ("interval", PyVal.int 60)]

/-- The same health-check configuration with token `tokenBBBB`. -/
def hcConfigB : PyDict :=
  [("hec_url", PyVal.str "https://hec.example:8088/services/collector"),
   ("hec_token", PyVal.str "tokenBBBB"), ("interval", PyVal.int 60)]

theorem validate_source_eq_rest (env : Env) (d : PyDict) (p : Int)
    (hreq : SourceManager.requiredMissing d = Option.none)
    (hport : pyInt (pget d "listener_port") = PyM.ok p)
    (h1 : 1 ≤ p) (h2 : p ≤ 65535) :
    SourceManager.validate_source env d = SourceManager.validateRest env d := by
  simp only [SourceManager.validate_source, hreq, hport]
  rw [if_neg (by omega)]

theorem validateRest_hec (env : Env) (d : PyDict)
    (hproto : dictGet d "protocol" = Option.some (PyVal.str "UDP") ∨
              dictGet d "protocol" = Option.some (PyVal.str "TCP"))
    (htt : pget d "target_type" = PyVal.str "HEC") :
    SourceManager.validateRest env d = SourceManager.hecCheck env d := by
  simp only [SourceManager.validateRest]
  rw [if_pos hproto, htt]
  rfl

theorem hecCheck_unfold (env : Env) (d : PyDict)
    (hurl : hasKey d "hec_url" = true) (htok : hasKey d "hec_token" = true) :
    SourceManager.hecCheck env d =
      match env.hecPost (pget d "hec_url") (pget d "hec_token") with
      | .status n =>
          if n ≠ 200 then
            PyM.ok (VResult.invalid
              ("HEC connection test failed with status code: " ++ toString n))
          else PyM.ok VResult.valid
      | .exn m =>
          PyM.ok (VResult.invalid ("HEC connection test failed: " ++ m)) := by
  simp [SourceManager.hecCheck, hurl, htok]

/-- C1: `validate_source` does NOT accept the target kind `FOLDER` that
the CLI add-source flow stores: on a source with every required field,
a writable folder path and `target_type = "FOLDER"` it returns the
target-type error, while the spelling `"Folder"` — which the CLI never
stores — is the one it accepts.  This contradicts the claim in both
directions and exhibits the casing mismatch between cli.py line 219 and
source_manager.py line 168. -/
theorem C1_validate_source_rejects_cli_folder_kind :
    SourceManager.validate_source envOk srcFOLDER =
      PyM.ok (VResult.invalid "Target type must be either Folder or HEC") ∧
    pget srcFOLDER "target_type" = PyVal.str "FOLDER" ∧
    SourceManager.validate_source envOk srcFolder = PyM.ok VResult.valid := by
  decide

/-- C2 counterexample: 201 is a 2xx status, yet the HEC connection test
of `validate_source` rejects it — validation does not pass for every
2xx status, only for 200. -/
theorem C2_counterexample_status_201 :
    (200 ≤ 201 ∧ 201 < 300) ∧
    SourceManager.validate_source env201 srcHEC =
      PyM.ok (VResult.invalid "HEC connection test failed with status code: 201") ∧
    SourceManager.validate_source env201 srcHEC ≠ PyM.ok VResult.valid := by
  decide

/-- C2 amended: for an HEC source passing the earlier checks, the HEC
connection test succeeds exactly when the POST returns status 200; any
other status — 2xx included — yields the structured status-code error,
and an exception yields the structured connection error. -/
theorem C2_hec_test_requires_exactly_200 (env : Env) (d : PyDict) (p : Int)
    (hreq : SourceManager.requiredMissing d = Option.none)
    (hport : pyInt (pget d "listener_port") = PyM.ok p)
    (h1 : 1 ≤ p) (h2 : p ≤ 65535)
    (hproto : dictGet d "protocol" = Option.some (PyVal.str "UDP") ∨
              dictGet d "protocol" = Option.some (PyVal.str "TCP"))
    (htt : pget d "target_type" = PyVal.str "HEC")
    (hurl : hasKey d "hec_url" = true)
    (htok : hasKey d "hec_token" = true) :
    (∀ n, env.hecPost (pget d "hec_url") (pget d "hec_token") = HecOutcome.status n →
        n ≠ 200 →
        SourceManager.validate_source env d =
          PyM.ok (VResult.invalid
            ("HEC connection test failed with status code: " ++ toString n))) ∧
    (∀ m, env.hecPost (pget d "hec_url") (pget d "hec_token") = HecOutcome.exn m →
        SourceManager.validate_source env d =
          PyM.ok (VResult.invalid ("HEC connection test failed: " ++ m))) ∧
    (SourceManager.validate_source env d = PyM.ok VResult.valid ↔
        env.hecPost (pget d "hec_url") (pget d "hec_token") = HecOutcome.status 200) := by
  have hval : SourceManager.validate_source env d = SourceManager.hecCheck env d :=
    (validate_source_eq_rest env d p hreq hport h1 h2).trans
      (validateRest_hec env d hproto htt)
  have hun := hecCheck_unfold env d hurl htok
  refine ⟨?_, ?_, ?_⟩
  · intro n hn hne
    rw [hval, hun, hn]
    simp [hne]
  · intro m hm
    rw [hval, hun, hm]
  · rw [hval, hun]
    cases hp : env.hecPost (pget d "hec_url") (pget d "hec_token") with
    | status n =>
        by_cases hn : n = 200
        · subst hn
          simp
        · simp [hn]
    | exn m => simp

/-- C2 witness: the amended characterization applied to a concrete HEC
source under environments answering 200, 500 and a network exception. -/
theorem C2_witness :
    SourceManager.validate_source envOk srcHEC = PyM.ok VResult.valid ∧
    SourceManager.validate_source env500 srcHEC =
      PyM.ok (VResult.invalid "HEC connection test failed with status code: 500") ∧
    SourceManager.validate_source envExn srcHEC =
      PyM.ok (VResult.invalid "HEC connection test failed: timeout") := by
  refine ⟨?_, ?_, ?_⟩
  · exact (C2_hec_test_requires_exactly_200 envOk srcHEC 6514 (by decide) (by decide)
      (by decide) (by decide) (Or.inr (by decide)) (by decide) (by decide)
      (by decide)).2.2.mpr (by decide)
  · exact (C2_hec_test_requires_exactly_200 env500 srcHEC 6514 (by decide) (by decide)
      (by decide) (by decide) (Or.inr (by decide)) (by decide) (by decide)
      (by decide)).1 500 (by decide) (by decide)
  · exact (C2_hec_test_requires_exactly_200 envExn srcHEC 6514 (by decide) (by decide)
      (by decide) (by decide) (Or.inr (by decide)) (by decide) (by decide)
      (by decide)).2.1 "timeout" (by decide)

/-- C3 counterexample: two health-check configurations that differ only
in the stored token value produce different reconfiguration prompt
text — the prompt of `_update_health_check` (cli.py line 733) embeds
the current token in clear text, so the displayed text is not identical
across token values. -/
theorem C3_counterexample_token_in_prompt :
    CLI.update_health_check_prompts 60 (Option.some hcConfigA) ≠
      CLI.update_health_check_prompts 60 (Option.some hcConfigB) ∧
    (CLI.update_health_check_prompts 60 (Option.some hcConfigA)).token_text =
      "HEC Token [tokenAAAA]: " ∧
    dictSet hcConfigA "hec_token" (PyVal.str "tokenBBBB") = hcConfigB := by
  decide

/-- C3 amended: the per-source detail view and the health-check
configuration view redact the token (their text is identical for any
two stored token values), but the health-check reconfiguration prompt
embeds the currently stored token in its displayed text. -/
theorem C3_token_redacted_in_views_not_in_prompt :
    (∀ (sid : String) (s : PyDict) (t1 t2 : PyVal),
        CLI.manage_source_view sid (dictSet s "hec_token" t1) =
          CLI.manage_source_view sid (dictSet s "hec_token" t2)) ∧
    (∀ (c : PyDict) (r : Bool) (t1 t2 : PyVal),
        CLI.health_check_config_view (dictSet c "hec_token" t1) r =
          CLI.health_check_config_view (dictSet c "hec_token" t2) r) ∧
    (∀ (di : Int) (c : PyDict),
        (CLI.update_health_check_prompts di (Option.some c)).token_text =
          "HEC Token " ++
            (if pyStr (pget c "hec_token") ≠ "" then
               "[" ++ pyStr (pget c "hec_token") ++ "]"
             else "") ++ ": ") := by
  refine ⟨?_, ?_, ?_⟩
  · intro sid s t1 t2
    have e : ∀ k, k ≠ "hec_token" →
        dictGet (dictSet s "hec_token" t1) k = dictGet (dictSet s "hec_token" t2) k := by
      intro k hk
      rw [dictGet_dictSet_ne s "hec_token" k t1 hk,
          dictGet_dictSet_ne s "hec_token" k t2 hk]
    simp only [CLI.manage_source_view, pget]
    rw [e "source_name" (by decide), e "source_ip" (by decide),
        e "listener_port" (by decide), e "protocol" (by decide),
        e "target_type" (by decide), e "folder_path" (by decide),
        e "hec_url" (by decide), e "batch_size" (by decide)]
  · intro c r t1 t2
    have e : ∀ k, k ≠ "hec_token" →
        dictGet (dictSet c "hec_token" t1) k = dictGet (dictSet c "hec_token" t2) k := by
      intro k hk
      rw [dictGet_dictSet_ne c "hec_token" k t1 hk,
          dictGet_dictSet_ne c "hec_token" k t2 hk]
    simp only [CLI.health_check_config_view, pget]
    rw [e "hec_url" (by decide), e "interval" (by decide)]
  · intro di c
    rfl

/-- C4: the claim that `validate_source` never raises fails on
wrongly-typed values: a `None` listener port makes `int(...)` raise a
`TypeError` that the except clause (which names only `ValueError`) does
not catch, so the exception escapes `validate_source`, `add_source` and
`update_source` instead of a structured error result. -/
theorem C4_type_error_escapes :
    SourceManager.validate_source envOk srcPortNone =
      PyM.raise (PyExn.typeError
        "int() argument must be a string, a bytes-like object or a real number, not NoneType") ∧
    SourceManager.add_source envOk cfg0 [] "id-1" srcPortNone =
      PyM.raise (PyExn.typeError
        "int() argument must be a string, a bytes-like object or a real number, not NoneType") ∧
    SourceManager.update_source envOk [("id-0", srcHEC)] "id-0"
        [("listener_port", PyVal.none)] =
      PyM.raise (PyExn.typeError
        "int() argument must be a string, a bytes-like object or a real number, not NoneType") := by
  exact ⟨rfl, rfl, rfl⟩

/-- C5: per-source validation never inspects the registry, so
`add_source` succeeds for a new source that duplicates an existing
source's bind IP or its (protocol, port) pair, as long as the source
itself validates and persistence succeeds; the duplicate-IP rejection
exists only in the interactive CLI input loop. -/
theorem C5_no_cross_source_uniqueness (env : Env) (cfg : Config) (reg : Registry)
    (newId : String) (d : PyDict) (otherId : String) (other : PyDict)
    (hother : dictGet reg otherId = Option.some other)
    (hdup : dictGet other "source_ip" =
              dictGet (SourceManager.applyDefaults cfg d) "source_ip" ∨
            (dictGet other "protocol" =
               dictGet (SourceManager.applyDefaults cfg d) "protocol" ∧
             dictGet other "listener_port" =
               dictGet (SourceManager.applyDefaults cfg d) "listener_port"))
    (hvalid : SourceManager.validate_source env (SourceManager.applyDefaults cfg d) =
        PyM.ok VResult.valid)
    (hsave : env.save (dictSet reg newId (SourceManager.applyDefaults cfg d)) = true) :
    SourceManager.add_source env cfg reg newId d =
      PyM.ok (OpResult.success (Option.some newId),
        dictSet reg newId (SourceManager.applyDefaults cfg d)) ∧
    (∀ ips ip, ip ∈ ips → CLI.add_source_ip_accepted ips ip = false) := by
  constructor
  · simp only [SourceManager.add_source, hvalid, hsave, if_true]
  · intro ips ip hip
    have hc : ips.contains ip = true := List.elem_eq_true_of_mem hip
    have hdef : CLI.add_source_ip_accepted ips ip =
        (!(ips.contains ip) && CLI.cliIpOk ip) := rfl
    rw [hdef, hc]
    rfl

/-- C5 witness: adding a source that duplicates the stored source's
IP, protocol and port succeeds, while the CLI loop rejects the same IP. -/
theorem C5_witness :
    SourceManager.add_source envOk cfg0 [("id-0", srcFolder)] "id-1" srcFolderDup =
      PyM.ok (OpResult.success (Option.some "id-1"),
        dictSet [("id-0", srcFolder)] "id-1"
          (SourceManager.applyDefaults cfg0 srcFolderDup)) ∧
    CLI.add_source_ip_accepted ["10.0.0.1"] "10.0.0.1" = false := by
  constructor
  · exact (C5_no_cross_source_uniqueness envOk cfg0 [("id-0", srcFolder)] "id-1"
      srcFolderDup "id-0" srcFolder (by decide) (Or.inl (by decide)) (by decide)
      (by decide)).1
  · exact (C5_no_cross_source_uniqueness envOk cfg0 [("id-0", srcFolder)] "id-1"
      srcFolderDup "id-0" srcFolder (by decide) (Or.inl (by decide)) (by decide)
      (by decide)).2 ["10.0.0.1"] "10.0.0.1" (by decide)

/-- C6: with the required fields present, `validate_source` enforces
the port range 1-65535: a string that does not parse as an integer
yields the not-a-number error, an integer outside 1..65535 yields the
range error, and an integer in range lets validation proceed to the
remaining checks. -/
theorem C6_port_range (env : Env) (d : PyDict)
    (hreq : SourceManager.requiredMissing d = Option.none) :
    (∀ m, pyInt (pget d "listener_port") = PyM.raise (PyExn.valueError m) →
        SourceManager.validate_source env d =
          PyM.ok (VResult.invalid "Listener port must be a valid number")) ∧
    (∀ p, pyInt (pget d "listener_port") = PyM.ok p → (p < 1 ∨ p > 65535) →
        SourceManager.validate_source env d =
          PyM.ok (VResult.invalid "Listener port must be between 1 and 65535")) ∧
    (∀ p, pyInt (pget d "listener_port") = PyM.ok p → 1 ≤ p → p ≤ 65535 →
        SourceManager.validate_source env d = SourceManager.validateRest env d) := by
  refine ⟨?_, ?_, ?_⟩
  · intro m hm
    simp only [SourceManager.validate_source, hreq, hm]
  · intro p hp hrange
    simp only [SourceManager.validate_source, hreq, hp]
    rw [if_pos hrange]
  · intro p hp hl hh
    exact validate_source_eq_rest env d p hreq hp hl hh

/-- C6 witness: the port check at the three kinds of concrete input. -/
theorem C6_port_range_witness :
    SourceManager.validate_source envOk srcPortNotNum =
      PyM.ok (VResult.invalid "Listener port must be a valid number") ∧
    SourceManager.validate_source envOk srcPortOutOfRange =
      PyM.ok (VResult.invalid "Listener port must be between 1 and 65535") ∧
    SourceManager.validate_source envOk srcFolder =
      SourceManager.validateRest envOk srcFolder := by
  refine ⟨?_, ?_, ?_⟩
  · exact (C6_port_range envOk srcPortNotNum (by decide)).1
      "invalid literal for int() with base 10: 51x4" (by decide)
  · exact (C6_port_range envOk srcPortOutOfRange (by decide)).2.1 70000 (by decide)
      (by decide)
  · exact (C6_port_range envOk srcFolder (by decide)).2.2 514 (by decide) (by decide)
      (by decide)

/-- C7: the default-filling step of `add_source` sets the protocol
default and the per-target batch-size defaults for the spellings
`HEC` and `Folder`, but applies NO batch-size default to the kind
`FOLDER` that the CLI add-source flow stores — the same source is then
rejected outright by validation, contradicting the claim for the folder
kind. -/
theorem C7_folder_kind_gets_no_batch_default :
    dictGet (SourceManager.applyDefaults cfg0 srcFOLDER) "batch_size" = Option.none ∧
    dictGet (SourceManager.applyDefaults cfg0 srcFolder) "batch_size" =
      Option.some (PyVal.int 5000) ∧
    dictGet (SourceManager.applyDefaults cfg0 srcHEC) "batch_size" =
      Option.some (PyVal.int 500) ∧
    dictGet (SourceManager.applyDefaults cfg0 srcFolderNoProto) "protocol" =
      Option.some (PyVal.str "UDP") ∧
    SourceManager.add_source envOk cfg0 [] "id-1" srcFOLDER =
      PyM.ok (OpResult.failure "Target type must be either Folder or HEC", []) := by
  decide

/-- C8: on a successful update, `update_source` stores the field-wise
merge: the merged source holds exactly the updated values for the keys
the update names, keeps every other field of the stored source, and
every other source in the registry is untouched. -/
theorem C8_update_source_merges_fieldwise (env : Env) (reg : Registry)
    (sid : String) (upd src : PyDict)
    (hsrc : dictGet reg sid = Option.some src)
    (hnd : (upd.map Prod.fst).Nodup)
    (hvalid : SourceManager.validate_source env (dictUpdate src upd) =
        PyM.ok VResult.valid) :
    ∃ r, SourceManager.update_source env reg sid upd =
        PyM.ok (r, dictSet reg sid (dictUpdate src upd)) ∧
      dictGet (dictSet reg sid (dictUpdate src upd)) sid =
        Option.some (dictUpdate src upd) ∧
      (∀ k v, dictGet upd k = Option.some v →
          dictGet (dictUpdate src upd) k = Option.some v) ∧
      (∀ k, dictGet upd k = Option.none →
          dictGet (dictUpdate src upd) k = dictGet src k) ∧
      (∀ sid2, sid2 ≠ sid →
          dictGet (dictSet reg sid (dictUpdate src upd)) sid2 = dictGet reg sid2) := by
  have hfr1 : ∀ k v, dictGet upd k = Option.some v →
      dictGet (dictUpdate src upd) k = Option.some v := fun k v hk =>
    dictGet_dictUpdate_of_mem src hnd (mem_of_dictGet_eq_some hk)
  have hfr2 : ∀ k, dictGet upd k = Option.none →
      dictGet (dictUpdate src upd) k = dictGet src k := fun k hk =>
    dictGet_dictUpdate_of_not_mem src hk
  have hfr3 : ∀ sid2, sid2 ≠ sid →
      dictGet (dictSet reg sid (dictUpdate src upd)) sid2 = dictGet reg sid2 :=
    fun sid2 h2 => dictGet_dictSet_ne reg sid sid2 _ h2
  have hself := dictGet_dictSet_self reg sid (dictUpdate src upd)
  cases hs : env.save (dictSet reg sid (dictUpdate src upd)) with
  | true =>
      exact ⟨OpResult.success Option.none,
        by simp only [SourceManager.update_source, hsrc, hvalid, hs, if_true],
        hself, hfr1, hfr2, hfr3⟩
  | false =>
      exact ⟨OpResult.failure "Failed to save source configuration",
        by simp [SourceManager.update_source, hsrc, hvalid, hs],
        hself, hfr1, hfr2, hfr3⟩

/-- C8 witness: updating the stored folder source's port and name
merges exactly those two fields. -/
theorem C8_witness :
    ∃ r, SourceManager.update_source envOk [("id-0", srcFolder)] "id-0"
        [("listener_port", PyVal.int 1514), ("source_name", PyVal.str "app1b")] =
      PyM.ok (r, dictSet [("id-0", srcFolder)] "id-0"
        (dictUpdate srcFolder
          [("listener_port", PyVal.int 1514), ("source_name", PyVal.str "app1b")])) := by
  obtain ⟨r, h, -⟩ := C8_update_source_merges_fieldwise envOk [("id-0", srcFolder)]
    "id-0" [("listener_port", PyVal.int 1514), ("source_name", PyVal.str "app1b")]
    srcFolder (by decide) (by decide) (by decide)
  exact ⟨r, h⟩

/-- C9: when the merged source fails validation, `update_source`
returns the structured error and hands back the registry unchanged —
the merge happened on a copy and was never assigned. -/
theorem C9_update_source_atomic_on_invalid (env : Env) (reg : Registry)
    (sid : String) (upd src : PyDict) (m : String)
    (hsrc : dictGet reg sid = Option.some src)
    (hinv : SourceManager.validate_source env (dictUpdate src upd) =
        PyM.ok (VResult.invalid m)) :
    SourceManager.update_source env reg sid upd = PyM.ok (OpResult.failure m, reg) := by
  simp only [SourceManager.update_source, hsrc, hinv]

/-- C9 witness: an update that sets the port to 0 is rejected and the
registry is returned unchanged. -/
theorem C9_witness :
    SourceManager.update_source envOk [("id-0", srcFolder)] "id-0"
        [("listener_port", PyVal.int 0)] =
      PyM.ok (OpResult.failure "Listener port must be between 1 and 65535",
        [("id-0", srcFolder)]) :=
  C9_update_source_atomic_on_invalid envOk [("id-0", srcFolder)] "id-0"
    [("listener_port", PyVal.int 0)] srcFolder
    "Listener port must be between 1 and 65535" (by decide) (by decide)

/-- C10: `add_source` is not atomic with respect to persistence: when
validation passes but saving fails, it reports a failure yet the new
source is already in the in-memory map and is returned by `get_source`
and `get_sources`. -/
theorem C10_add_source_keeps_source_on_save_failure (env : Env) (cfg : Config)
    (reg : Registry) (sid : String) (d : PyDict)
    (hvalid : SourceManager.validate_source env (SourceManager.applyDefaults cfg d) =
        PyM.ok VResult.valid)
    (hsave : env.save (dictSet reg sid (SourceManager.applyDefaults cfg d)) = false) :
    SourceManager.add_source env cfg reg sid d =
      PyM.ok (OpResult.failure "Failed to save source configuration",
        dictSet reg sid (SourceManager.applyDefaults cfg d)) ∧
    SourceManager.get_source (dictSet reg sid (SourceManager.applyDefaults cfg d)) sid =
      Option.some (SourceManager.applyDefaults cfg d) ∧
    dictGet (SourceManager.get_sources
        (dictSet reg sid (SourceManager.applyDefaults cfg d))) sid =
      Option.some (SourceManager.applyDefaults cfg d) := by
  refine ⟨?_, ?_, ?_⟩
  · simp [SourceManager.add_source, hvalid, hsave]
  · exact dictGet_dictSet_self reg sid _
  · exact dictGet_dictSet_self reg sid _

/-- C10 witness: adding a valid folder source under a failing
persistence layer reports failure while the source is retrievable from
the new in-memory state. -/
theorem C10_witness :
    SourceManager.add_source envNoSave cfg0 [] "id-1" srcFolder =
      PyM.ok (OpResult.failure "Failed to save source configuration",
        dictSet [] "id-1" (SourceManager.applyDefaults cfg0 srcFolder)) ∧
    SourceManager.get_source
        (dictSet [] "id-1" (SourceManager.applyDefaults cfg0 srcFolder)) "id-1" =
      Option.some (SourceManager.applyDefaults cfg0 srcFolder) := by
  obtain ⟨h1, h2, -⟩ := C10_add_source_keeps_source_on_save_failure envNoSave cfg0 []
    "id-1" srcFolder (by decide) (by decide)
  exact ⟨h1, h2⟩

end LogCollector
